import Mathlib

/-!
Verification of the screensaver.turnoff Kodi addon (`screensaver.py`)
against its natural-language specification.

The embedding models the method catalogs, the Python list-indexing used to
resolve a configured method, the strategy dispatch (`func`), the JSON-RPC
envelope construction (`jsonrpc`), the settings accessor (`get_setting`),
the OS-process runner (`run_command`), and the dialog lifecycle
(`onInit` / `resume` / `exit`) together with the monitor callback
(`onScreensaverDeactivated`).  Side effects are modelled as explicit
action traces.
-/

set_option autoImplicit false

/-- A JSON value, as produced by parsing a JSON-RPC payload or reply. -/
inductive JVal where
  | jnull
  | jbool (b : Bool)
  | jint (n : Int)
  | jstr (s : String)
  | jobj (fields : List (String × JVal))

mutual

def JVal.decEq : (a b : JVal) → Decidable (a = b)
  | .jnull, .jnull => isTrue rfl
  | .jbool a, .jbool b =>
    if h : a = b then isTrue (by rw [h]) else isFalse (fun hh => h (JVal.jbool.inj hh))
  | .jint a, .jint b =>
    if h : a = b then isTrue (by rw [h]) else isFalse (fun hh => h (JVal.jint.inj hh))
  | .jstr a, .jstr b =>
    if h : a = b then isTrue (by rw [h]) else isFalse (fun hh => h (JVal.jstr.inj hh))
  | .jobj a, .jobj b =>
    match JVal.decEqFields a b with
    | isTrue h => isTrue (by rw [h])
    | isFalse h => isFalse (fun hh => h (JVal.jobj.inj hh))
  | .jnull, .jbool _ => isFalse nofun
  | .jnull, .jint _ => isFalse nofun
  | .jnull, .jstr _ => isFalse nofun
  | .jnull, .jobj _ => isFalse nofun
  | .jbool _, .jnull => isFalse nofun
  | .jbool _, .jint _ => isFalse nofun
  | .jbool _, .jstr _ => isFalse nofun
  | .jbool _, .jobj _ => isFalse nofun
  | .jint _, .jnull => isFalse nofun
  | .jint _, .jbool _ => isFalse nofun
  | .jint _, .jstr _ => isFalse nofun
  | .jint _, .jobj _ => isFalse nofun
  | .jstr _, .jnull => isFalse nofun
  | .jstr _, .jbool _ => isFalse nofun
  | .jstr _, .jint _ => isFalse nofun
  | .jstr _, .jobj _ => isFalse nofun
  | .jobj _, .jnull => isFalse nofun
  | .jobj _, .jbool _ => isFalse nofun
  | .jobj _, .jint _ => isFalse nofun
  | .jobj _, .jstr _ => isFalse nofun

def JVal.decEqFields : (a b : List (String × JVal)) → Decidable (a = b)
  | [], [] => isTrue rfl
  | [], _ :: _ => isFalse nofun
  | _ :: _, [] => isFalse nofun
  | (k1, v1) :: t1, (k2, v2) :: t2 =>
    match String.decEq k1 k2, JVal.decEq v1 v2, JVal.decEqFields t1 t2 with
    | isTrue hk, isTrue hv, isTrue ht => isTrue (by rw [hk, hv, ht])
    | isFalse hk, _, _ =>
      isFalse (by intro hh; injection hh with h1 h2; injection h1; contradiction)
    | _, isFalse hv, _ =>
      isFalse (by intro hh; injection hh with h1 h2; injection h1; contradiction)
    | _, _, isFalse ht =>
      isFalse (by intro hh; injection hh with h1 h2; contradiction)

end

instance : DecidableEq JVal := JVal.decEq

/-- One entry of a method catalog (`DISPLAY_METHODS` / `POWER_METHODS`):
a symbolic name, a UI title, the name of the global function implementing
the strategy, and the positional / keyword parameter sets.  Display
entries use positional `args_off` / `args_on`; power entries use
`kwargs_off` only, exactly as in the source dictionaries. -/
structure MethodEntry where
  name : String
  title : String
  function : String
  args_off : List JVal := []
  args_on : List JVal := []
  kwargs_off : List (String × JVal) := []
deriving DecidableEq, Inhabited

/-- The `DISPLAY_METHODS` catalog, transcribed from the source. -/
def DISPLAY_METHODS : List MethodEntry := [
  { name := "do-nothing", title := "Do nothing",
    function := "log",
    args_off := [JVal.jint 2, JVal.jstr "Do nothing to power off display"],
    args_on := [JVal.jint 2, JVal.jstr "Do nothing to power back on display"] },
  { name := "cec-builtin", title := "CEC (buil-in)",
    function := "run_builtin",
    args_off := [JVal.jstr "CECStandby"],
    args_on := [JVal.jstr "CECActivateSource"] },
  { name := "no-signal-rpi", title := "No Signal on Raspberry Pi (using vcgencmd)",
    function := "run_command",
    args_off := [JVal.jstr "vcgencmd", JVal.jstr "display_power", JVal.jstr "0"],
    args_on := [JVal.jstr "vcgencmd", JVal.jstr "display_power", JVal.jstr "1"] },
  { name := "dpms-builtin", title := "DPMS (built-in)",
    function := "run_builtin",
    args_off := [JVal.jstr "ToggleDPMS"],
    args_on := [JVal.jstr "ToggleDPMS"] },
  { name := "dpms-xset", title := "DPMS (using xset)",
    function := "run_command",
    args_off := [JVal.jstr "xset", JVal.jstr "dpms", JVal.jstr "force", JVal.jstr "off"],
    args_on := [JVal.jstr "xset", JVal.jstr "dpms", JVal.jstr "force", JVal.jstr "on"] },
  { name := "dpms-vbetool", title := "DPMS (using vbetool)",
    function := "run_command",
    args_off := [JVal.jstr "vbetool", JVal.jstr "dpms", JVal.jstr "off"],
    args_on := [JVal.jstr "vbetool", JVal.jstr "dpms", JVal.jstr "on"] },
  { name := "dpms-xrandr", title := "DPMS (using xrandr)",
    function := "run_command",
    args_off := [JVal.jstr "xrandr", JVal.jstr "--output CRT-0", JVal.jstr "off"],
    args_on := [JVal.jstr "xrandr", JVal.jstr "--output CRT-0", JVal.jstr "on"] },
  { name := "cec-android", title := "CEC on Android (kernel)",
    function := "run_command",
    args_off := [JVal.jstr "su", JVal.jstr "-c",
                 JVal.jstr "echo 0 >/sys/devices/virtual/graphics/fb0/cec"],
    args_on := [JVal.jstr "su", JVal.jstr "-c",
                JVal.jstr "echo 1 >/sys/devices/virtual/graphics/fb0/cec"] },
  { name := "backlight-rpi", title := "Backlight on Raspberry Pi (kernel)",
    function := "run_command",
    args_off := [JVal.jstr "su", JVal.jstr "-c",
                 JVal.jstr "echo 1 >/sys/class/backlight/rpi_backlight/bl_power"],
    args_on := [JVal.jstr "su", JVal.jstr "-c",
                JVal.jstr "echo 0 >/sys/class/backlight/rpi_backlight/bl_power"] },
  { name := "backlight-odroid-c2", title := "Backlight on Odroid C2 (kernel)",
    function := "run_command",
    args_off := [JVal.jstr "su", JVal.jstr "-c",
                 JVal.jstr "echo 0 >/sys/class/amhdmitx/amhdmitx0/phy"],
    args_on := [JVal.jstr "su", JVal.jstr "-c",
                JVal.jstr "echo 1 >/sys/class/amhdmitx/amhdmitx0/phy"] }
]

/-- The `POWER_METHODS` catalog, transcribed from the source. -/
def POWER_METHODS : List MethodEntry := [
  { name := "do-nothing", title := "Do nothing",
    function := "log",
    kwargs_off := [("level", JVal.jint 2), ("msg", JVal.jstr "Do nothing to power off system")] },
  { name := "suspend-builtin", title := "Suspend (built-in)",
    function := "jsonrpc", kwargs_off := [("method", JVal.jstr "System.Suspend")] },
  { name := "hibernate-builtin", title := "Hibernate (built-in)",
    function := "jsonrpc", kwargs_off := [("method", JVal.jstr "System.Hibernate")] },
  { name := "quit-builtin", title := "Quit (built-in)",
    function := "jsonrpc", kwargs_off := [("method", JVal.jstr "Application.Quit")] },
  { name := "shutdown-builtin", title := "ShutDown action (built-in)",
    function := "jsonrpc", kwargs_off := [("method", JVal.jstr "System.Shutdown")] },
  { name := "reboot-builtin", title := "Reboot (built-in)",
    function := "jsonrpc", kwargs_off := [("method", JVal.jstr "System.Reboot")] },
  { name := "powerdown-builtin", title := "Powerdown (built-in)",
    function := "jsonrpc", kwargs_off := [("method", JVal.jstr "System.Powerdown")] }
]

/-- Python list subscription `l[i]` for an integer index: a negative index
counts from the end of the list; an index outside `[-len, len)` raises
`IndexError`.  This is the operation performed by
`DISPLAY_METHODS[display_method]` and `POWER_METHODS[power_method]`. -/
def pythonListGet {α : Type} (l : List α) (i : Int) : Except String α :=
  let n : Int := l.length
  let j : Int := if i < 0 then i + n else i
  if 0 ≤ j then
    match l.get? j.toNat with
    | some a => Except.ok a
    | none => Except.error "IndexError"
  else Except.error "IndexError"

/-- One observable step performed by the addon.  `logMsg` stands for an
invocation of the `log` routine (whether the host sink records it depends
on the log-level gate, which is plumbing); `rpc` records an invocation of
`jsonrpc` with its keyword arguments; `process` records a spawned OS
command; `builtin` a host built-in invocation; `monitorCreate` the
construction of the `TurnOffMonitor`; `unknownCall` a dynamic global
lookup outside the strategy set. -/
inductive Act where
  | logMsg
  | logError (msg : String)
  | builtin (b : String)
  | process (argv : List String)
  | rpc (kwargs : List (String × JVal))
  | notify (msg : String)
  | monitorCreate
  | unknownCall (f : String)
deriving DecidableEq

/-- Extract the text of a JSON string (the positional arguments of
`run_builtin` / `run_command` entries are all strings). -/
def jstrOf : JVal → String
  | JVal.jstr s => s
  | _ => ""

/-- Models `func(function, *args)`: dynamic dispatch on the strategy function
name with positional arguments, as used for the display methods.  The
action it emits is the request the strategy performs. -/
def funcArgs (function : String) (args : List JVal) : Act :=
  if function = "log" then Act.logMsg
  else if function = "run_builtin" then Act.builtin (jstrOf (args.headD JVal.jnull))
  else if function = "run_command" then Act.process (args.map jstrOf)
  else Act.unknownCall function

/-- Models `func(function, **kwargs)`: dynamic dispatch on the strategy function
name with keyword arguments, as used for the power methods. -/
def funcKwargs (function : String) (kwargs : List (String × JVal)) : Act :=
  if function = "log" then Act.logMsg
  else if function = "jsonrpc" then Act.rpc kwargs
  else Act.unknownCall function

/-- The payload built by `jsonrpc(**kwargs)`: `id=1` is added when absent
and `jsonrpc='2.0'` is added when absent, then the payload is serialized
and sent to the host. -/
def jsonrpcPayload (kwargs : List (String × JVal)) : List (String × JVal) :=
  let k1 := if (kwargs.lookup "id").isNone then kwargs ++ [("id", JVal.jint 1)] else kwargs
  if (k1.lookup "jsonrpc").isNone then k1 ++ [("jsonrpc", JVal.jstr "2.0")] else k1

/-- Models `jsonrpc(**kwargs)`: sends the enveloped payload over the host
round-trip (`executeJSONRPC` + `loads`, modelled by `host`) and returns
the parsed reply unchanged (`return result` in the source). -/
def jsonrpc (host : List (String × JVal) → List (String × JVal))
    (kwargs : List (String × JVal)) : List (String × JVal) :=
  host (jsonrpcPayload kwargs)

/-- Modelled from the spec (§4.2 RemoteCall): the spec states that the
remote-call operation "parses the structured reply, and returns the
`result` field (or an empty mapping if absent)".  Stated here only to be
compared against `jsonrpc`, the operation the source actually defines. -/
def specRemoteCallReturn (host : List (String × JVal) → List (String × JVal))
    (kwargs : List (String × JVal)) : JVal :=
  ((host (jsonrpcPayload kwargs)).lookup "result").getD (JVal.jobj [])

/-- Python `dict.get(key)` returning `None` when the key is absent, and
raising `AttributeError` when the receiver is not a mapping. -/
def pyDictGet (v : JVal) (key : String) : Except String JVal :=
  match v with
  | JVal.jobj fields => Except.ok ((fields.lookup key).getD JVal.jnull)
  | _ => Except.error "AttributeError"

/-- Models `get_global_setting(setting)`: issues the `Settings.GetSettingValue`
remote call and extracts `result['result'].get('value')` with `{}` as the
default for a missing `result` field. -/
def get_global_setting (host : List (String × JVal) → List (String × JVal))
    (setting : String) : Except String JVal :=
  let result := jsonrpc host [("method", JVal.jstr "Settings.GetSettingValue"),
                              ("params", JVal.jobj [("setting", JVal.jstr setting)])]
  pyDictGet ((result.lookup "result").getD (JVal.jobj [])) "value"

/-- Models `get_setting(setting_id, default)`: the stored value, except that an
empty stored value together with a non-`None` default yields the
default. -/
def get_setting (store : String → String) (setting_id : String)
    (default : Option String) : String :=
  let value := store setting_id
  if value = "" ∧ default.isSome then default.getD "" else value

/-- A decimal digit character. -/
def pyDigitChar (c : Char) : Bool := 48 ≤ c.toNat && c.toNat ≤ 57

/-- The value of a non-empty all-digit character sequence; `none`
otherwise. -/
def pyDigitsList (cs : List Char) : Option Nat :=
  if cs = [] then none
  else if cs.all pyDigitChar then
    some (cs.foldl (fun acc c => acc * 10 + (c.toNat - 48)) 0)
  else none

/-- Python `int(text)` on a decimal character sequence with an optional
sign. -/
def pyIntList : List Char → Option Int
  | [] => none
  | c :: rest =>
    if c = '-' then (pyDigitsList rest).map (fun n => -(n : Int))
    else if c = '+' then (pyDigitsList rest).map (fun n => (n : Int))
    else (pyDigitsList (c :: rest)).map (fun n => (n : Int))

/-- Python `int(text)` on a decimal string with an optional sign;
`none` models `ValueError`. -/
def pyInt (s : String) : Option Int := pyIntList s.data

/-- Models `int(get_setting(setting_id, 0))`: the stored method index, with the
integer `0` as the default for an empty stored value. -/
def intSetting (store : String → String) (setting_id : String) : Option Int :=
  let value := store setting_id
  if value = "" then some 0 else pyInt value

/-- The `jsonrpc` keyword arguments of `set_mute(toggle=True)`. -/
def muteOnAction : Act :=
  Act.rpc [("method", JVal.jstr "Application.SetMute"),
              ("params", JVal.jobj [("mute", JVal.jbool true)])]

/-- The `jsonrpc` keyword arguments of `set_mute(toggle=False)`. -/
def muteOffAction : Act :=
  Act.rpc [("method", JVal.jstr "Application.SetMute"),
              ("params", JVal.jobj [("mute", JVal.jbool false)])]

/-- The `jsonrpc` keyword arguments of `activate_window('loginscreen')`. -/
def activateWindowAction : Act :=
  Act.rpc [("method", JVal.jstr "GUI.ActivateWindow"),
              ("params", JVal.jobj [("window", JVal.jstr "loginscreen")])]

/-- The state of a `TurnOffDialog` instance.  `monitorAttr` models the
`monitor` attribute: `some none` after `__init__` (`self.monitor = None`),
`some (some ())` once the `TurnOffMonitor` is attached, `none` after
`del self.monitor`. -/
structure Dialog where
  display : Option MethodEntry := none
  logoff : Option String := none
  mute : Option String := none
  power : Option MethodEntry := none
  monitorAttr : Option (Option Unit) := some none
  closed : Bool := false
deriving DecidableEq

/-- The dialog as constructed by `TurnOffDialog.__init__`. -/
def initDialog : Dialog := {}

namespace TurnOffDialog

/-- Models `self.close()`. -/
def close (d : Dialog) : Dialog := { d with closed := true }

/-- Models `del self.monitor`: fails with `AttributeError` when the attribute is
absent. -/
def delMonitor (d : Dialog) : Except String Dialog :=
  match d.monitorAttr with
  | none => Except.error "AttributeError"
  | some _ => Except.ok { d with monitorAttr := none }

/-- Models `TurnOffDialog.exit`: delete the monitor attribute when present
(guarded by `hasattr`), then close the dialog. -/
def exit (d : Dialog) : Except String Dialog :=
  if d.monitorAttr.isSome then (delMonitor d).map close
  else Except.ok (close d)

/-- The action trace of `TurnOffDialog.resume` for a resolved display
entry and the stored `mute` setting. -/
def resumeActions (muteV : Option String) (disp : MethodEntry) : List Act :=
  (if muteV = some "true" then [Act.logMsg, muteOffAction] else [])
  ++ (if disp.name ≠ "do-nothing" then [Act.logMsg] else [])
  ++ [funcArgs disp.function disp.args_on]

/-- Models `TurnOffDialog.resume`: unmute when muting was configured, run the
display method's on-strategy, then clean up via `exit`.  When `display`
was never resolved the attribute access raises after the mute step. -/
def resume (d : Dialog) : Except String Dialog × List Act :=
  let muteActs := if d.mute = some "true" then [Act.logMsg, muteOffAction] else []
  match d.display with
  | none => (Except.error "AttributeError", muteActs)
  | some disp =>
    match exit d with
    | Except.ok d1 => (Except.ok d1, resumeActions d.mute disp)
    | Except.error e => (Except.error e, resumeActions d.mute disp)

/-- The action trace of `TurnOffDialog.onInit` once both methods are
resolved: the settings log line, the display off-action, the optional
logoff and mute steps, the monitor construction, and the power
off-action, in source order. -/
def activationActions (logoffV muteV : String) (display power : MethodEntry) : List Act :=
  [Act.logMsg]
  ++ (if display.name ≠ "do-nothing" then [Act.logMsg] else [])
  ++ [funcArgs display.function display.args_off]
  ++ (if logoffV = "true" then [Act.logMsg, activateWindowAction] else [])
  ++ (if muteV = "true" then [Act.logMsg, muteOnAction] else [])
  ++ [Act.monitorCreate]
  ++ (if power.name ≠ "do-nothing" then [Act.logMsg] else [])
  ++ [funcKwargs power.function power.kwargs_off]

/-- Models `TurnOffDialog.onInit`: read the settings, resolve both method
entries by Python list indexing (an `IndexError` or `ValueError` aborts
before any action is performed), then execute the activation sequence. -/
def onInit (store : String → String) (d : Dialog) : Except String Dialog × List Act :=
  let logoffV := get_setting store "logoff" (some "false")
  let muteV := get_setting store "mute" (some "true")
  match intSetting store "display_method" with
  | none => (Except.error "ValueError", [])
  | some di =>
    match pythonListGet DISPLAY_METHODS di with
    | Except.error e => (Except.error e, [])
    | Except.ok display =>
      match intSetting store "power_method" with
      | none => (Except.error "ValueError", [])
      | some pi =>
        match pythonListGet POWER_METHODS pi with
        | Except.error e => (Except.error e, [])
        | Except.ok power =>
          (Except.ok { d with logoff := some logoffV, mute := some muteV,
                              display := some display, power := some power,
                              monitorAttr := some (some ()) },
           activationActions logoffV muteV display power)

end TurnOffDialog

namespace TurnOffMonitor

/-- Models `TurnOffMonitor.onScreensaverDeactivated`: calls the stored callback
`self.action()` unconditionally — the stored callback is the dialog's
`resume`. -/
def onScreensaverDeactivated (d : Dialog) : Except String Dialog × List Act :=
  TurnOffDialog.resume d

end TurnOffMonitor

/-- The host delivering the deactivation event twice in succession to the
monitor callback. -/
def doubleFire (d : Dialog) : Except String Dialog × List Act :=
  match TurnOffMonitor.onScreensaverDeactivated d with
  | (Except.ok d1, a1) =>
    let r2 := TurnOffMonitor.onScreensaverDeactivated d1
    (r2.1, a1 ++ r2.2)
  | (Except.error e, a1) => (Except.error e, a1)

/-- The outcome of `subprocess.Popen(...).communicate()`: either the
command completed with its combined output and return code, or the spawn
itself raised `OSError`. -/
inductive SpawnOutcome where
  | completed (out : String) (rc : Int)
  | oserror (exc : String)
deriving DecidableEq

/-- How `run_command` left the process: returned normally, or terminated
the whole process via `sys.exit(code)`. -/
inductive RunResult where
  | finished
  | exited (code : Nat)
deriving DecidableEq

/-- Models `run_command(*command)`: log on success; on a non-zero return code
log the failure and the captured output, notify, and `sys.exit(1)`; on
`OSError` log the exception, notify, and `sys.exit(2)`.  The `if err:`
branch of the source is dead because stderr is merged into stdout, so
`err` is always `None` (hence the literal `None` in the popup text). -/
def run_command (command : List String) (outcome : SpawnOutcome) : RunResult × List Act :=
  match outcome with
  | SpawnOutcome.completed out rc =>
    if rc = 0 then (RunResult.finished, [Act.logMsg])
    else
      (RunResult.exited 1,
        [Act.logError ("Running command " ++ String.intercalate " " command
            ++ " failed with rc=" ++ toString rc)]
        ++ (if out ≠ "" then
              [Act.logError ("Command " ++ command.headD ""
                  ++ " returned on stdout: " ++ out ++ " ")]
            else [])
        ++ [Act.notify (out ++ "\nNone")])
  | SpawnOutcome.oserror exc =>
    (RunResult.exited 2,
      [Act.logError ("Exception running " ++ command.headD "" ++ ": " ++ exc),
       Act.notify ("Exception running " ++ command.headD "" ++ ": " ++ exc)])

/-- Log invocations (`log` / `log_error`). -/
def isLogAct : Act → Bool
  | Act.logMsg => true
  | Act.logError _ => true
  | _ => false

/-- The non-log actions of a trace, in order. -/
def observable (acts : List Act) : List Act := acts.filter (fun a => !(isLogAct a))

/-- The `Application.SetMute(mute=false)` remote call. -/
def isMuteOff (a : Act) : Bool := a == muteOffAction

/-- Device-level invocations produced by dispatching a display entry:
a host built-in, an OS process, or a dynamic lookup outside the strategy
set. -/
def isDeviceAct : Act → Bool
  | Act.builtin _ => true
  | Act.process _ => true
  | Act.unknownCall _ => true
  | _ => false

/-- OS-process spawns. -/
def isProcessAct : Act → Bool
  | Act.process _ => true
  | _ => false

/-- The remote-call methods used by the power catalog. -/
def powerRpcNames : List String :=
  ["System.Suspend", "System.Hibernate", "Application.Quit",
   "System.Shutdown", "System.Reboot", "System.Powerdown"]

/-- Remote calls that perform a system power action. -/
def isPowerRpc : Act → Bool
  | Act.rpc kwargs =>
    match kwargs.lookup "method" with
    | some (JVal.jstr m) => powerRpcNames.contains m
    | _ => false
  | _ => false

/-- Any invocation attributable to a catalog entry: a device-level
action or a power remote call. -/
def isCatalogInvocation (a : Act) : Bool := isDeviceAct a || isPowerRpc a


/-! ## Example inputs used by witnesses and counterexamples -/

/-- A settings store with logoff and mute enabled, the `no-signal-rpi`
display method (index 2) and the `suspend-builtin` power method
(index 1). -/
def exampleStore : String → String := fun setting_id =>
  if setting_id = "logoff" then "true"
  else if setting_id = "mute" then "true"
  else if setting_id = "display_method" then "2"
  else if setting_id = "power_method" then "1" else ""

/-- The dialog produced by `onInit` on `exampleStore`. -/
def exampleActivatedDialog : Dialog :=
  { display := some (DISPLAY_METHODS.getD 2 default), logoff := some "true",
    mute := some "true", power := some (POWER_METHODS.getD 1 default),
    monitorAttr := some (some ()), closed := false }

/-- An activated session with both methods set to the no-op entry and
muting enabled. -/
def activeDialog : Dialog :=
  { display := some (DISPLAY_METHODS.getD 0 default), logoff := some "false",
    mute := some "true", power := some (POWER_METHODS.getD 0 default),
    monitorAttr := some (some ()), closed := false }

/-- A host whose structured reply carries a `result` field. -/
def hostC3 : List (String × JVal) → List (String × JVal) := fun _ =>
  [("jsonrpc", JVal.jstr "2.0"), ("id", JVal.jint 1),
   ("result", JVal.jobj [("value", JVal.jint 5)])]

/-- A settings store with the display method index stored as `-1`. -/
def storeNegIndex : String → String := fun setting_id =>
  if setting_id = "display_method" then "-1" else ""

/-- A settings store selecting the no-op entry (index 0) for both
catalogs. -/
def storeDoNothing : String → String := fun setting_id =>
  if setting_id = "display_method" then "0"
  else if setting_id = "power_method" then "0" else ""


/-! ## Helper lemmas -/

theorem pythonListGet_inbounds {α : Type} [Inhabited α] (l : List α) (i : Int)
    (h1 : 0 ≤ i) (h2 : i < (l.length : Int)) :
    pythonListGet l i = Except.ok (l.getD i.toNat default) := by
  have hn : i.toNat < l.length := by omega
  simp only [pythonListGet, if_neg (by omega : ¬ i < 0), if_pos h1]
  rw [List.get?_eq_get hn, List.getD_eq_get l default hn]

theorem pythonListGet_negative {α : Type} [Inhabited α] (l : List α) (i : Int)
    (h1 : -(l.length : Int) ≤ i) (h2 : i < 0) :
    pythonListGet l i = Except.ok (l.getD (i + l.length).toNat default) := by
  have hn : (i + (l.length : Int)).toNat < l.length := by omega
  simp only [pythonListGet, if_pos h2, if_pos (by omega : (0:Int) ≤ i + l.length)]
  rw [List.get?_eq_get hn, List.getD_eq_get l default hn]

theorem pythonListGet_oob {α : Type} (l : List α) (i : Int)
    (h : i < -(l.length : Int) ∨ (l.length : Int) ≤ i) :
    pythonListGet l i = Except.error "IndexError" := by
  rcases h with h | h
  · simp only [pythonListGet, if_pos (by omega : i < 0),
      if_neg (by omega : ¬ (0:Int) ≤ i + l.length)]
  · have h0 : ¬ i < 0 := by omega
    have hn : l.get? i.toNat = none := by
      rw [List.get?_eq_none]
      omega
    simp only [pythonListGet, if_neg h0, if_pos (by omega : (0:Int) ≤ i), hn]

theorem pythonListGet_error_val {α : Type} (l : List α) (i : Int) (e : String)
    (h : pythonListGet l i = Except.error e) : e = "IndexError" := by
  simp only [pythonListGet] at h
  repeat' split at h
  all_goals simp_all

/-- Lemma: `TurnOffDialog.exit` always succeeds and returns the dialog with
the monitor attribute removed and the dialog closed. -/
theorem TurnOffDialog.exit_spec (d : Dialog) :
    TurnOffDialog.exit d = Except.ok { d with monitorAttr := none, closed := true } := by
  obtain ⟨ds, lo, mu, po, mo, cl⟩ := d
  cases mo <;> rfl

/-! ## C1 — catalog lookup -/

/-- Claim C1 (amended): resolving the configured method at integer index
`i` in a catalog returns the entry at position `i` when `0 ≤ i < len`;
for `-len ≤ i < 0` it does not fail but returns the entry at position
`len + i` (Python negative indexing); only for `i < -len` or `i ≥ len`
does it fail with an `IndexError`. -/
theorem C1_lookup_amended (l : List MethodEntry)
    (hl : l = DISPLAY_METHODS ∨ l = POWER_METHODS) (i : Int) :
    (0 ≤ i → i < (l.length : Int) →
      pythonListGet l i = Except.ok (l.getD i.toNat default)) ∧
    (-(l.length : Int) ≤ i → i < 0 →
      pythonListGet l i = Except.ok (l.getD (i + l.length).toNat default)) ∧
    ((i < -(l.length : Int) ∨ (l.length : Int) ≤ i) →
      pythonListGet l i = Except.error "IndexError") := by
  clear hl
  exact ⟨fun h1 h2 => pythonListGet_inbounds l i h1 h2,
         fun h1 h2 => pythonListGet_negative l i h1 h2,
         fun h => pythonListGet_oob l i h⟩

/-- Witness for C1: index 3 of the display catalog resolves in bounds,
index `-2` of the power catalog resolves to the entry at position 5, and
index 99 raises `IndexError`. -/
theorem C1_lookup_amended_witness :
    pythonListGet DISPLAY_METHODS 3 =
      Except.ok (DISPLAY_METHODS.getD (Int.toNat 3) default) ∧
    pythonListGet POWER_METHODS (-2) =
      Except.ok (POWER_METHODS.getD (Int.toNat (-2 + 7)) default) ∧
    pythonListGet DISPLAY_METHODS 99 = Except.error "IndexError" :=
  ⟨(C1_lookup_amended DISPLAY_METHODS (Or.inl rfl) 3).1 (by decide) (by decide),
   (C1_lookup_amended POWER_METHODS (Or.inr rfl) (-2)).2.1 (by decide) (by decide),
   (C1_lookup_amended DISPLAY_METHODS (Or.inl rfl) 99).2.2 (Or.inr (by decide))⟩

/-- Counterexample to C1 as stated: the negative index `-1` is outside
`[0, len)` but the lookup succeeds (returning the last catalog entry)
instead of failing with `IndexError`. -/
theorem C1_counterexample :
    (pythonListGet DISPLAY_METHODS (-1)).map (fun e => e.name) =
      Except.ok "backlight-odroid-c2" ∧
    (pythonListGet DISPLAY_METHODS (-1)).toOption.isSome = true :=
  ⟨rfl, rfl⟩

/-! ## C2 — double deactivation -/

/-- Claim C2 (amended): `TurnOffMonitor` applies no fired-once guard.
Every deactivation event delivered to the monitor invokes the stored
callback and executes the full resume sequence, so a second delivered
firing repeats exactly the action list of the first instead of being a
no-op.  Exactly-once execution relies on the host no longer delivering
events once the session has dropped its monitor reference during
teardown, not on any guard in the addon. -/
theorem C2_no_guard (d d1 : Dialog) (a1 : List Act)
    (h : TurnOffMonitor.onScreensaverDeactivated d = (Except.ok d1, a1)) :
    TurnOffMonitor.onScreensaverDeactivated d1 =
      (Except.ok (TurnOffDialog.close d1), a1) := by
  unfold TurnOffMonitor.onScreensaverDeactivated TurnOffDialog.resume at h ⊢
  cases hdisp : d.display with
  | none =>
    rw [hdisp] at h
    exact absurd (congrArg Prod.fst h) (by simp)
  | some disp =>
    rw [hdisp] at h
    rw [TurnOffDialog.exit_spec d] at h
    obtain ⟨h1, h2⟩ := Prod.mk.injEq .. ▸ h
    obtain rfl : d1 = { d with monitorAttr := none, closed := true } :=
      (Except.ok.inj h1).symm
    subst h2
    rw [show ({ d with monitorAttr := none, closed := true } : Dialog).display
          = some disp from hdisp]
    rw [TurnOffDialog.exit_spec]
    rfl

/-- Witness for C2 (amended): after a first delivered firing on
`activeDialog`, a second delivered firing repeats the same resume
actions (unmute, log, display on-dispatch). -/
theorem C2_no_guard_witness :
    TurnOffMonitor.onScreensaverDeactivated
        { activeDialog with monitorAttr := none, closed := true } =
      (Except.ok (TurnOffDialog.close
          { activeDialog with monitorAttr := none, closed := true }),
       [Act.logMsg, muteOffAction, Act.logMsg]) :=
  C2_no_guard activeDialog { activeDialog with monitorAttr := none, closed := true }
    [Act.logMsg, muteOffAction, Act.logMsg] rfl

/-- Counterexample to C2 as stated: on the activated session
`activeDialog` (mute applied), delivering the deactivation event twice
executes the resume sequence twice — the `Application.SetMute(false)`
remote call appears twice in the combined trace, and the second firing
is not a no-op. -/
theorem C2_counterexample :
    ((doubleFire activeDialog).2.filter isMuteOff).length = 2 ∧
    ((TurnOffDialog.resume activeDialog).2.filter isMuteOff).length = 1 := ⟨rfl, rfl⟩

/-! ## C3 — JSON-RPC envelope and return value -/

/-- Claim C3 (amended): for every remote-call invocation with a method
and params (no caller in the source passes `id` or `jsonrpc`), the
envelope sent to the host carries the given method and params together
with `id = 1` and `jsonrpc = "2.0"`; but `jsonrpc` returns the entire
parsed reply, not its `result` field — the `result`-field extraction
with an empty-mapping default is performed by the caller
(`get_global_setting`), as the last conjunct states. -/
theorem C3_jsonrpc_envelope (host : List (String × JVal) → List (String × JVal))
    (method : String) (params : JVal) :
    (jsonrpcPayload [("method", JVal.jstr method), ("params", params)]).lookup "method"
        = some (JVal.jstr method) ∧
    (jsonrpcPayload [("method", JVal.jstr method), ("params", params)]).lookup "params"
        = some params ∧
    (jsonrpcPayload [("method", JVal.jstr method), ("params", params)]).lookup "id"
        = some (JVal.jint 1) ∧
    (jsonrpcPayload [("method", JVal.jstr method), ("params", params)]).lookup "jsonrpc"
        = some (JVal.jstr "2.0") ∧
    jsonrpc host [("method", JVal.jstr method), ("params", params)]
        = host (jsonrpcPayload [("method", JVal.jstr method), ("params", params)]) ∧
    specRemoteCallReturn host [("method", JVal.jstr method), ("params", params)]
        = ((jsonrpc host [("method", JVal.jstr method), ("params", params)]).lookup
            "result").getD (JVal.jobj []) :=
  ⟨rfl, rfl, rfl, rfl, rfl, rfl⟩

/-- Counterexample to C3 as stated: with a host reply that carries a
`result` field, the value returned by `jsonrpc` (the whole parsed reply)
differs from the `result` field the spec says the operation returns. -/
theorem C3_counterexample :
    JVal.jobj (jsonrpc hostC3 [("method", JVal.jstr "Settings.GetSettingValue"),
        ("params", JVal.jobj [("setting", JVal.jstr "debug.showloginfo")])]) ≠
      specRemoteCallReturn hostC3 [("method", JVal.jstr "Settings.GetSettingValue"),
        ("params", JVal.jobj [("setting", JVal.jstr "debug.showloginfo")])] := by
  decide

/-! ## C4 — activation order -/

theorem observable_activationActions (display power : MethodEntry) :
    observable (TurnOffDialog.activationActions "true" "true" display power) =
      observable [funcArgs display.function display.args_off]
      ++ [activateWindowAction, muteOnAction, Act.monitorCreate]
      ++ observable [funcKwargs power.function power.kwargs_off] := by
  simp only [TurnOffDialog.activationActions, observable, List.filter_append]
  split_ifs <;> simp [isLogAct, activateWindowAction, muteOnAction]

/-- Claim C4: with `logoff = "true"` and `mute = "true"` and indices that
resolve, the non-log steps of the activation sequence occur in exactly
this order: the display off-action, the logoff trigger
(`GUI.ActivateWindow(loginscreen)`), the mute-on remote call, the
monitor creation, and the power off-action. -/
theorem C4_activation_order (store : String → String) (d d1 : Dialog) (acts : List Act)
    (hlog : store "logoff" = "true") (hmute : store "mute" = "true")
    (h : TurnOffDialog.onInit store d = (Except.ok d1, acts)) :
    ∃ disp pow, d1.display = some disp ∧ d1.power = some pow ∧
      observable acts =
        observable [funcArgs disp.function disp.args_off]
        ++ [activateWindowAction, muteOnAction, Act.monitorCreate]
        ++ observable [funcKwargs pow.function pow.kwargs_off] := by
  have hlo : get_setting store "logoff" (some "false") = "true" := by
    simp [get_setting, hlog]
  have hmu : get_setting store "mute" (some "true") = "true" := by
    simp [get_setting, hmute]
  simp only [TurnOffDialog.onInit] at h
  cases hdi : intSetting store "display_method" with
  | none => simp [hdi] at h
  | some di =>
    simp only [hdi] at h
    cases hD : pythonListGet DISPLAY_METHODS di with
    | error e => simp [hD] at h
    | ok disp =>
      simp only [hD] at h
      cases hpi : intSetting store "power_method" with
      | none => simp [hpi] at h
      | some pi =>
        simp only [hpi] at h
        cases hP : pythonListGet POWER_METHODS pi with
        | error e => simp [hP] at h
        | ok pow =>
          simp only [hP, hlo, hmu] at h
          obtain ⟨h1, h2⟩ := Prod.mk.injEq .. ▸ h
          obtain rfl := (Except.ok.inj h1).symm
          refine ⟨disp, pow, rfl, rfl, ?_⟩
          rw [← h2]
          exact observable_activationActions disp pow

/-- Witness for C4: the activation of `exampleStore` produces the five
non-log steps in the stated order. -/
theorem C4_activation_order_witness :
    ∃ disp pow, exampleActivatedDialog.display = some disp ∧
      exampleActivatedDialog.power = some pow ∧
      observable [Act.logMsg, Act.logMsg,
          Act.process ["vcgencmd", "display_power", "0"], Act.logMsg,
          activateWindowAction, Act.logMsg, muteOnAction, Act.monitorCreate,
          Act.logMsg, Act.rpc [("method", JVal.jstr "System.Suspend")]] =
        observable [funcArgs disp.function disp.args_off]
        ++ [activateWindowAction, muteOnAction, Act.monitorCreate]
        ++ observable [funcKwargs pow.function pow.kwargs_off] :=
  C4_activation_order exampleStore initDialog exampleActivatedDialog
    [Act.logMsg, Act.logMsg, Act.process ["vcgencmd", "display_power", "0"],
     Act.logMsg, activateWindowAction, Act.logMsg, muteOnAction, Act.monitorCreate,
     Act.logMsg, Act.rpc [("method", JVal.jstr "System.Suspend")]] rfl rfl rfl

/-! ## C5 — OS process failure handling -/

/-- Claim C5: when the spawned command completes with a non-zero return
code, `run_command` logs the failure, shows a notification carrying the
captured output, and terminates the process with exit code 1 (never the
command's own code); when the spawn itself fails, it logs and notifies
the exception text and terminates with exit code 2. -/
theorem C5_run_command (command : List String) (out : String) (rc : Int) (exc : String) :
    (rc ≠ 0 →
      (run_command command (SpawnOutcome.completed out rc)).1 = RunResult.exited 1 ∧
      Act.notify (out ++ "\nNone")
          ∈ (run_command command (SpawnOutcome.completed out rc)).2 ∧
      Act.logError ("Running command " ++ String.intercalate " " command
            ++ " failed with rc=" ++ toString rc)
          ∈ (run_command command (SpawnOutcome.completed out rc)).2) ∧
    ((run_command command (SpawnOutcome.oserror exc)).1 = RunResult.exited 2 ∧
      Act.notify ("Exception running " ++ command.headD "" ++ ": " ++ exc)
          ∈ (run_command command (SpawnOutcome.oserror exc)).2 ∧
      Act.logError ("Exception running " ++ command.headD "" ++ ": " ++ exc)
          ∈ (run_command command (SpawnOutcome.oserror exc)).2) := by
  constructor
  · intro hrc
    simp [run_command, hrc]
  · exact ⟨rfl, by simp [run_command], by simp [run_command]⟩

/-- Witness for C5: a command exiting with code 5 terminates the process
with code 1, and a failed spawn terminates with code 2. -/
theorem C5_run_command_witness :
    (run_command ["tool", "off"] (SpawnOutcome.completed "boom" 5)).1
        = RunResult.exited 1 ∧
    (run_command ["tool", "off"] (SpawnOutcome.oserror "ENOENT")).1
        = RunResult.exited 2 :=
  ⟨((C5_run_command ["tool", "off"] "boom" 5 "ENOENT").1 (by decide)).1,
   (C5_run_command ["tool", "off"] "boom" 5 "ENOENT").2.1⟩

/-! ## C6 — out-of-bounds index aborts activation -/

/-- Claim C6 (amended): when a configured method index is outside the
Python index range of its catalog (`i < -len` or `i ≥ len`), the
activation aborts with `IndexError` before any action is performed: the
trace is empty, so no process is spawned, no built-in runs, and no mute
or logoff change is made.  Indices in `[-len, 0)`, although outside the
spec's `[0, len)` bounds, do not abort: they resolve to the entry at
position `len + i` and activation proceeds. -/
theorem C6_out_of_bounds_aborts (store : String → String) (d : Dialog) (di pi : Int)
    (hdi : intSetting store "display_method" = some di)
    (hpi : intSetting store "power_method" = some pi)
    (h : (di < -(DISPLAY_METHODS.length : Int) ∨ (DISPLAY_METHODS.length : Int) ≤ di) ∨
         (pi < -(POWER_METHODS.length : Int) ∨ (POWER_METHODS.length : Int) ≤ pi)) :
    TurnOffDialog.onInit store d = (Except.error "IndexError", []) := by
  simp only [TurnOffDialog.onInit, hdi]
  rcases h with h | h
  · rw [pythonListGet_oob DISPLAY_METHODS di h]
  · cases hD : pythonListGet DISPLAY_METHODS di with
    | error e =>
      obtain rfl := pythonListGet_error_val DISPLAY_METHODS di e hD
      rfl
    | ok disp =>
      simp only [hD, hpi]
      rw [pythonListGet_oob POWER_METHODS pi h]

/-- Witness for C6 (amended): with `display_method = 99` on the 10-entry
display catalog, activation aborts with an empty trace. -/
theorem C6_out_of_bounds_aborts_witness :
    TurnOffDialog.onInit (fun setting_id =>
        if setting_id = "display_method" then "99" else "") initDialog =
      (Except.error "IndexError", []) :=
  C6_out_of_bounds_aborts
    (fun setting_id => if setting_id = "display_method" then "99" else "")
    initDialog 99 0 rfl rfl (Or.inl (Or.inr (by decide)))

/-- Counterexample to C6 as stated: the stored index `-1` is out of the
spec's `[0, len)` bounds, yet activation does not abort — it resolves
the last display entry and spawns its external process. -/
theorem C6_counterexample :
    ((TurnOffDialog.onInit storeNegIndex initDialog).2.filter isProcessAct).length = 1 ∧
    (TurnOffDialog.onInit storeNegIndex initDialog).1.toOption.isSome = true :=
  ⟨rfl, rfl⟩

/-! ## C7 — resume restores mute and display -/

theorem isMuteOff_logMsg : isMuteOff Act.logMsg = false := rfl

theorem isMuteOff_muteOff : isMuteOff muteOffAction = true := rfl

theorem isMuteOff_funcArgs (f : String) (args : List JVal) :
    isMuteOff (funcArgs f args) = false := by
  unfold funcArgs isMuteOff
  split_ifs <;> rfl

theorem isDeviceAct_logMsg : isDeviceAct Act.logMsg = false := rfl

theorem isDeviceAct_muteOff : isDeviceAct muteOffAction = false := rfl

theorem isPowerRpc_logMsg : isPowerRpc Act.logMsg = false := rfl

theorem isPowerRpc_muteOff : isPowerRpc muteOffAction = false := rfl

theorem isPowerRpc_funcArgs (f : String) (args : List JVal) :
    isPowerRpc (funcArgs f args) = false := by
  unfold funcArgs isPowerRpc
  split_ifs <;> rfl

/-- Every display catalog entry either is the no-op entry (whose
on-dispatch is only a log call) or dispatches to a device-level
invocation. -/
theorem display_entry_cases (disp : MethodEntry) (hmem : disp ∈ DISPLAY_METHODS) :
    (disp.name = "do-nothing" ∧ funcArgs disp.function disp.args_on = Act.logMsg) ∨
    (disp.name ≠ "do-nothing" ∧ isDeviceAct (funcArgs disp.function disp.args_on) = true) := by
  fin_cases hmem
  · exact Or.inl ⟨rfl, rfl⟩
  all_goals exact Or.inr ⟨by decide, rfl⟩

/-- Claim C7: on resume, the session issues the mute-off remote call
exactly when `mute = "true"` was configured, executes the display
method's on-strategy with its on-parameters exactly when the display
method is not the no-op entry (the no-op entry contributes only a log
call), and performs no power remote call at all — power methods have no
on-action. -/
theorem C7_resume_restores (d : Dialog) (disp : MethodEntry) (m : String)
    (hdisp : d.display = some disp) (hmem : disp ∈ DISPLAY_METHODS)
    (hm : d.mute = some m) :
    ∃ d1, TurnOffDialog.resume d =
        (Except.ok d1, TurnOffDialog.resumeActions (some m) disp) ∧
      (((TurnOffDialog.resumeActions (some m) disp).filter isMuteOff).length
          = if m = "true" then 1 else 0) ∧
      ((TurnOffDialog.resumeActions (some m) disp).filter isDeviceAct
          = if disp.name = "do-nothing" then []
            else [funcArgs disp.function disp.args_on]) ∧
      ((TurnOffDialog.resumeActions (some m) disp).all
          (fun a => !(isPowerRpc a)) = true) := by
  refine ⟨{ d with monitorAttr := none, closed := true }, ?_, ?_, ?_, ?_⟩
  · simp only [TurnOffDialog.resume, hdisp, hm, TurnOffDialog.exit_spec,
      TurnOffDialog.resumeActions]
  · simp only [TurnOffDialog.resumeActions, List.filter_append, List.length_append,
      Option.some.injEq]
    split_ifs with h1 h2 <;>
      simp [isMuteOff_logMsg, isMuteOff_muteOff, isMuteOff_funcArgs]
  · rcases display_entry_cases disp hmem with ⟨hn, hf⟩ | ⟨hn, hf⟩
    · rw [if_pos hn]
      simp only [TurnOffDialog.resumeActions, hf, hn, List.filter_append,
        Option.some.injEq]
      split_ifs <;>
        simp [isDeviceAct_logMsg, isDeviceAct_muteOff]
    · rw [if_neg hn]
      simp only [TurnOffDialog.resumeActions, List.filter_append, Option.some.injEq]
      split_ifs <;>
        simp [isDeviceAct_logMsg, isDeviceAct_muteOff, hf]
  · simp only [TurnOffDialog.resumeActions, List.all_append, Option.some.injEq]
    split_ifs <;>
      simp [isPowerRpc_logMsg, isPowerRpc_muteOff, isPowerRpc_funcArgs]

/-- Witness for C7: the resume of the activated `exampleStore` session
(display method `no-signal-rpi`, mute enabled) unmutes exactly once,
issues the display on-command, and performs no power action. -/
theorem C7_resume_restores_witness :
    ∃ d1, TurnOffDialog.resume exampleActivatedDialog =
        (Except.ok d1,
         TurnOffDialog.resumeActions (some "true") (DISPLAY_METHODS.getD 2 default)) ∧
      (((TurnOffDialog.resumeActions (some "true")
            (DISPLAY_METHODS.getD 2 default)).filter isMuteOff).length
          = if "true" = "true" then 1 else 0) ∧
      ((TurnOffDialog.resumeActions (some "true")
            (DISPLAY_METHODS.getD 2 default)).filter isDeviceAct
          = if (DISPLAY_METHODS.getD 2 default).name = "do-nothing" then []
            else [funcArgs (DISPLAY_METHODS.getD 2 default).function
                    (DISPLAY_METHODS.getD 2 default).args_on]) ∧
      ((TurnOffDialog.resumeActions (some "true")
            (DISPLAY_METHODS.getD 2 default)).all
          (fun a => !(isPowerRpc a)) = true) :=
  C7_resume_restores exampleActivatedDialog (DISPLAY_METHODS.getD 2 default) "true"
    rfl (by decide) rfl

/-! ## C8 — the no-op entry performs only log calls -/

/-- Claim C8: with the "do nothing" entry (index 0) selected for both
catalogs, neither activation nor resume performs any catalog-entry
invocation (no process, no built-in, no power remote call, no dynamic
lookup) — the entries contribute only log calls.  The remaining trace
actions are the session-level steps (logs, the optional mute/logoff
remote calls, and the monitor creation). -/
theorem C8_do_nothing_only_logs (store : String → String) (d d1 d2 : Dialog)
    (a1 a2 : List Act)
    (hd : store "display_method" = "0") (hp : store "power_method" = "0")
    (h1 : TurnOffDialog.onInit store d = (Except.ok d1, a1))
    (h2 : TurnOffDialog.resume d1 = (Except.ok d2, a2)) :
    ((a1 ++ a2).all (fun a => !(isCatalogInvocation a))) = true := by
  have e3 : intSetting store "display_method" = some 0 := by
    unfold intSetting
    rw [hd]
    exact rfl
  have e4 : intSetting store "power_method" = some 0 := by
    unfold intSetting
    rw [hp]
    exact rfl
  have eD : pythonListGet DISPLAY_METHODS 0
      = Except.ok (DISPLAY_METHODS.getD 0 default) := rfl
  have eP : pythonListGet POWER_METHODS 0
      = Except.ok (POWER_METHODS.getD 0 default) := rfl
  simp only [TurnOffDialog.onInit, e3, eD, e4, eP] at h1
  obtain ⟨hh1, hh2⟩ := Prod.mk.injEq .. ▸ h1
  obtain rfl := (Except.ok.inj hh1).symm
  subst hh2
  simp only [TurnOffDialog.resume, TurnOffDialog.exit_spec] at h2
  obtain ⟨hh3, hh4⟩ := Prod.mk.injEq .. ▸ h2
  subst hh4
  simp only [TurnOffDialog.activationActions, TurnOffDialog.resumeActions,
    List.all_append]
  split_ifs <;> decide

/-- Witness for C8: with both indices stored as `"0"`, the combined
activation-and-resume trace contains no catalog-entry invocation. -/
theorem C8_do_nothing_only_logs_witness :
    ((([Act.logMsg, Act.logMsg, Act.logMsg, muteOnAction, Act.monitorCreate,
        Act.logMsg] : List Act)
      ++ [Act.logMsg, muteOffAction, Act.logMsg]).all
        (fun a => !(isCatalogInvocation a))) = true :=
  C8_do_nothing_only_logs storeDoNothing initDialog activeDialog
    { activeDialog with monitorAttr := none, closed := true }
    [Act.logMsg, Act.logMsg, Act.logMsg, muteOnAction, Act.monitorCreate, Act.logMsg]
    [Act.logMsg, muteOffAction, Act.logMsg] rfl rfl rfl rfl

/-! ## C9 — teardown is safe to invoke twice -/

/-- Claim C9: `exit` never fails and is safe to invoke again on its own
result (the `hasattr` guard skips the deletion once the monitor handle
is gone), including after the explicit resume path has already run the
cleanup. -/
theorem C9_exit_idempotent (d : Dialog) :
    (∃ d1, TurnOffDialog.exit d = Except.ok d1 ∧
       ∃ d2, TurnOffDialog.exit d1 = Except.ok d2) ∧
    (∀ d3 acts, TurnOffDialog.resume d = (Except.ok d3, acts) →
       ∃ d4, TurnOffDialog.exit d3 = Except.ok d4) := by
  refine ⟨⟨_, TurnOffDialog.exit_spec d, _, TurnOffDialog.exit_spec _⟩, ?_⟩
  intro d3 acts _
  exact ⟨_, TurnOffDialog.exit_spec d3⟩

/-- Witness for C9: after the resume path has already torn down the
`activeDialog` session, a further `exit` call still succeeds. -/
theorem C9_exit_idempotent_witness :
    ∃ d4, TurnOffDialog.exit { activeDialog with monitorAttr := none, closed := true }
        = Except.ok d4 :=
  (C9_exit_idempotent activeDialog).2
    { activeDialog with monitorAttr := none, closed := true }
    [Act.logMsg, muteOffAction, Act.logMsg] rfl

/-! ## C10 — defaults for empty stored settings -/

/-- Claim C10: `get_setting` returns the supplied default exactly when
the stored value is empty and a default is given (otherwise it returns
the stored value), and with an empty store the activation defaults are
`logoff = "false"`, `mute = "true"`, and both method indices 0 (the
no-op entries). -/
theorem C10_defaults (store : String → String) (setting_id dft : String) :
    (store setting_id = "" → get_setting store setting_id (some dft) = dft) ∧
    (store setting_id ≠ "" → get_setting store setting_id (some dft) = store setting_id) ∧
    (get_setting store setting_id none = store setting_id) ∧
    (store "logoff" = "" → store "mute" = "" → store "display_method" = "" →
     store "power_method" = "" →
      ∃ d1 acts, TurnOffDialog.onInit store initDialog = (Except.ok d1, acts) ∧
        d1.logoff = some "false" ∧ d1.mute = some "true" ∧
        d1.display = DISPLAY_METHODS.get? 0 ∧ d1.power = POWER_METHODS.get? 0) := by
  refine ⟨?_, ?_, ?_, ?_⟩
  · intro h
    simp [get_setting, h]
  · intro h
    simp [get_setting, h]
  · simp [get_setting]
  · intro hlo hmu hdm hpm
    have e1 : get_setting store "logoff" (some "false") = "false" := by
      simp [get_setting, hlo]
    have e2 : get_setting store "mute" (some "true") = "true" := by
      simp [get_setting, hmu]
    have e3 : intSetting store "display_method" = some 0 := by
      unfold intSetting
      rw [hdm]
      exact rfl
    have e4 : intSetting store "power_method" = some 0 := by
      unfold intSetting
      rw [hpm]
      exact rfl
    have eD : pythonListGet DISPLAY_METHODS 0
        = Except.ok (DISPLAY_METHODS.getD 0 default) := rfl
    have eP : pythonListGet POWER_METHODS 0
        = Except.ok (POWER_METHODS.getD 0 default) := rfl
    refine ⟨activeDialog,
            TurnOffDialog.activationActions "false" "true"
              (DISPLAY_METHODS.getD 0 default) (POWER_METHODS.getD 0 default),
            ?_, rfl, rfl, rfl, rfl⟩
    simp only [TurnOffDialog.onInit, e1, e2, e3, e4, eD, eP]
    rfl

/-- Witness for C10: on the empty store, `get_setting` yields the
supplied default and activation resolves the documented defaults. -/
theorem C10_defaults_witness :
    get_setting (fun _ => "") "logoff" (some "x") = "x" ∧
    (∃ d1 acts, TurnOffDialog.onInit (fun _ => "") initDialog = (Except.ok d1, acts) ∧
      d1.logoff = some "false" ∧ d1.mute = some "true" ∧
      d1.display = DISPLAY_METHODS.get? 0 ∧ d1.power = POWER_METHODS.get? 0) :=
  ⟨(C10_defaults (fun _ => "") "logoff" "x").1 rfl,
   (C10_defaults (fun _ => "") "logoff" "x").2.2.2 rfl rfl rfl rfl⟩
